import Mathlib

/-!
Shallow embedding of `src/main.c` — replacement firmware for a Mausberry-style
Raspberry Pi car power supply running on an ATtiny25.

The whole program is two interrupt handlers plus a boot sequence:

* `ISR(PCINT0_vect)` — the combined pin-change handler, run on any edge of
  either sensed input (`SWITCHED_PWR` on PB1, `PI_OUT` on PB0);
* `ISR(TIM0_OVF_vect)` — the timer-0 overflow handler, which toggles the LED;
* `main` — configures DDRB/GIMSK/PCMSK/TIMSK, starts timer 0, writes
  `PORTB = _BV(BIG_SWITCH)`, then sleeps forever.

Modelling choices, faithful to the source:

* `PORTB` and `TCCR0B` are `Nat` registers; C's 8-bit `reg &= ~mask` is
  modelled as `reg &&& (255 ^^^ mask)` (the 8-bit complement of the mask).
* `PINB` reads the physical pin levels: for the three pins configured as
  outputs by `DDRB` (PB2, PB3, PB4) this is the driven `PORTB` level; for the
  two input pins (PB0, PB1) it is the externally applied level, supplied to a
  handler invocation as a `Pins` record.  C's truthiness test
  `PINB & _BV(x)` (single-bit mask) is rendered as `(pinb ..).testBit x`.
* `pi_script_running` is the single `static bool`, zero-initialised.
* A handler runs to completion with interrupts masked, so each invocation is a
  pure state-to-state function; a power cycle is a list of such invocations
  folded over the boot state.
-/

namespace RpiCarPs

/-- Pin assignments from main.c: PB3 = PI_IN, PB4 = LED, PB2 = BTS5090 IN,
PB1 = 5V switched sense, PB0 = PI_OUT. -/
def PI_IN : Nat := 3

def LED : Nat := 4

def BIG_SWITCH : Nat := 2

def SWITCHED_PWR : Nat := 1

def PI_OUT : Nat := 0

/-- avr-libc bit-value macro: `_BV(n) = 1 << n`. -/
def _BV (n : Nat) : Nat := 1 <<< n

/-- Timer-0 clock-select bits of `TCCR0B` (ATtiny25 datasheet). -/
def CS00 : Nat := 0

def CS01 : Nat := 1

def CS02 : Nat := 2

/-- Pin-change interrupt enable bit of `GIMSK`. -/
def PCIE : Nat := 5

/-- Timer-0 overflow interrupt enable bit of `TIMSK`. -/
def TOIE0 : Nat := 1

/-- The externally applied levels of the two sensed input pins at a handler
invocation: PB1 (`SWITCHED_PWR`, high = ignition-switched 12V present) and
PB0 (`PI_OUT`, driven high by the Pi script while it runs). -/
structure Pins where
  switchedPwr : Bool
  piOut : Bool
  deriving DecidableEq, Repr

/-- Controller state: the two writable registers the program touches after
boot, plus the one `static bool`. -/
structure State where
  portb : Nat
  tccr0b : Nat
  pi_script_running : Bool
  deriving DecidableEq, Repr

/-- Boot value of `DDRB`: `_BV(LED) | _BV(BIG_SWITCH) | _BV(PI_IN)` (main.c
line 111); PB4, PB2, PB3 are driven outputs, PB0 and PB1 stay inputs. -/
def ddrbBoot : Nat := _BV LED ||| _BV BIG_SWITCH ||| _BV PI_IN

/-- Boot value of `GIMSK`: `_BV(PCIE)` (main.c line 114). -/
def gimskBoot : Nat := _BV PCIE

/-- Boot value of `PCMSK`: `_BV(SWITCHED_PWR) | _BV(PI_OUT)` (main.c
line 115): edge sensing on exactly the two input pins. -/
def pcmskBoot : Nat := _BV SWITCHED_PWR ||| _BV PI_OUT

/-- Boot value of `TIMSK`: `_BV(TOIE0)` (main.c line 119). -/
def timskBoot : Nat := _BV TOIE0

/-- The `PINB` register as read by a handler: output pins (those set in
`DDRB`) read back their driven `PORTB` level, input pins read the external
level. -/
def pinb (s : State) (p : Pins) : Nat :=
  (s.portb &&& ddrbBoot) |||
    (cond p.switchedPwr (_BV SWITCHED_PWR) 0) |||
    (cond p.piOut (_BV PI_OUT) 0)

/-- The clock-select field update of `enable_timer0`:
`TCCR0B | (_BV(CS02) | _BV(CS00))` — clock at F_CPU / 1024. -/
def enableClock (t : Nat) : Nat := t ||| (_BV CS02 ||| _BV CS00)

/-- The clock-select field update of `disable_timer0`:
`TCCR0B & ~(_BV(CS02) | _BV(CS01) | _BV(CS00))` — clock stopped. -/
def disableClock (t : Nat) : Nat :=
  t &&& (255 ^^^ (_BV CS02 ||| _BV CS01 ||| _BV CS00))

/-- `enable_timer0`: `TCCR0B |= (_BV(CS02) | _BV(CS00))`. -/
def enable_timer0 (s : State) : State := { s with tccr0b := enableClock s.tccr0b }

/-- `disable_timer0`: `TCCR0B &= ~(_BV(CS02) | _BV(CS01) | _BV(CS00))`. -/
def disable_timer0 (s : State) : State := { s with tccr0b := disableClock s.tccr0b }

/-- `ISR(PCINT0_vect)`, main.c lines 70–101: the combined edge handler,
translated statement by statement. -/
def pcint (p : Pins) (s0 : State) : State :=
  let s1 :=
    if (pinb s0 p).testBit PI_OUT then
      -- Pi script turns the pin high when running.
      { disable_timer0 s0 with pi_script_running := true }
    else if s0.pi_script_running then
      -- Pi is requesting power off.
      let a := { s0 with portb := s0.portb &&& (255 ^^^ _BV BIG_SWITCH) }
      let b := disable_timer0 a
      { b with portb := b.portb &&& (255 ^^^ _BV LED) }
    else s0
  if (pinb s1 p).testBit SWITCHED_PWR then
    -- Notify Pi the switched power is on; stop blinking the LED.
    let a := { s1 with portb := s1.portb &&& (255 ^^^ _BV PI_IN) }
    let b := disable_timer0 a
    { b with portb := pinb b p ||| _BV LED }
  else
    -- Notify Pi the switch is off; blink the LED.
    let a := { s1 with portb := s1.portb ||| _BV PI_IN }
    enable_timer0 a

/-- `ISR(TIM0_OVF_vect)`, main.c lines 103–106: `PORTB = PINB ^ _BV(LED)`. -/
def tim0_ovf (p : Pins) (s : State) : State :=
  { s with portb := pinb s p ^^^ _BV LED }

/-- Register state at power-on reset, before `main` runs: AVR I/O registers
and `.bss` statics are zero. -/
def resetState : State :=
  { portb := 0, tccr0b := 0, pi_script_running := false }

/-- The boot sequence of `main` (lines 108–126) as it affects `State`:
`enable_timer0()` then `PORTB = _BV(BIG_SWITCH)`.  (`DDRB`, `GIMSK`, `PCMSK`
and `TIMSK` are write-once configuration, recorded by the `*Boot`
constants above.)  The boot code never reads the input pins. -/
def init (_bootPins : Pins) : State :=
  { enable_timer0 resetState with portb := _BV BIG_SWITCH }

/-- The boot state (the sensed levels do not influence it). -/
def boot : State := init ⟨true, false⟩

/-- Spec observable `MainPowerEnabled`: the driven level of the
`BIG_SWITCH` (BTS5090) gate output, PORTB bit 2. -/
def MainPowerEnabled (s : State) : Bool := s.portb.testBit BIG_SWITCH

/-- Spec observable `HostNotify`: the driven level of `PI_IN`, PORTB bit 3
(high = "switched power has been removed, begin shutdown"). -/
def HostNotify (s : State) : Bool := s.portb.testBit PI_IN

/-- The driven level of the LED output, PORTB bit 4. -/
def LedDriven (s : State) : Bool := s.portb.testBit LED

/-- The timer-0 clock is running iff the clock-select bits are nonzero. -/
def clockArmed (t : Nat) : Bool :=
  (t &&& (_BV CS02 ||| _BV CS01 ||| _BV CS00)) != 0

/-- The blink timer is armed iff the timer-0 clock-select bits are nonzero. -/
def timerArmed (s : State) : Bool := clockArmed s.tccr0b

/-- Spec observable `LedState`. -/
inductive LedState where
  | Off
  | Blinking
  | SolidOn
  deriving DecidableEq, Repr

/-- The visible LED state: blinking while the timer is armed, else the level
last driven on the pin. -/
def ledState (s : State) : LedState :=
  if timerArmed s then .Blinking else if LedDriven s then .SolidOn else .Off

/-- An event serviced within a power cycle: an edge on a sensed input, or a
timer-0 overflow tick.  Both handlers read `PINB`, so both carry the sensed
levels at the moment they run. -/
inductive Ev where
  | edge (p : Pins)
  | tick (p : Pins)
  deriving DecidableEq, Repr

/-- One handler invocation. -/
def step : Ev → State → State
  | .edge p, s => pcint p s
  | .tick p, s => tim0_ovf p s

/-- A sequence of serviced events (handlers are serialized and run to
completion, so a power cycle is a fold). -/
def run (evs : List Ev) (s : State) : State :=
  evs.foldl (fun s e => step e s) s

/-- Which of the two sensed inputs edged to trigger a pin-change interrupt.
The ATtiny25 delivers a single `PCINT0` vector for both pins and latches no
cause register that the program reads. -/
inductive EdgeCause where
  | switchedPwrEdge
  | hostEdge
  deriving DecidableEq, Repr

/-- The edge handler as actually dispatched by the hardware: the triggering
pin is not an input of `ISR(PCINT0_vect)` — the body reads only the current
`PINB` levels and `pi_script_running`. -/
def pcintFrom (_c : EdgeCause) (p : Pins) (s : State) : State := pcint p s

end RpiCarPs

namespace RpiCarPs

/-! Evaluation lemmas for `Nat.testBit` on the register-mask numerals of
this program (Lean 4.14 has no simproc for these). -/

@[simp] lemma tb_1_0 : Nat.testBit 1 0 = true := by decide

@[simp] lemma tb_1_1 : Nat.testBit 1 1 = false := by decide

@[simp] lemma tb_1_2 : Nat.testBit 1 2 = false := by decide

@[simp] lemma tb_1_3 : Nat.testBit 1 3 = false := by decide

@[simp] lemma tb_1_4 : Nat.testBit 1 4 = false := by decide

@[simp] lemma tb_2_0 : Nat.testBit 2 0 = false := by decide

@[simp] lemma tb_2_1 : Nat.testBit 2 1 = true := by decide

@[simp] lemma tb_2_2 : Nat.testBit 2 2 = false := by decide

@[simp] lemma tb_2_3 : Nat.testBit 2 3 = false := by decide

@[simp] lemma tb_2_4 : Nat.testBit 2 4 = false := by decide

@[simp] lemma tb_3_0 : Nat.testBit 3 0 = true := by decide

@[simp] lemma tb_3_1 : Nat.testBit 3 1 = true := by decide

@[simp] lemma tb_3_2 : Nat.testBit 3 2 = false := by decide

@[simp] lemma tb_3_3 : Nat.testBit 3 3 = false := by decide

@[simp] lemma tb_3_4 : Nat.testBit 3 4 = false := by decide

@[simp] lemma tb_4_0 : Nat.testBit 4 0 = false := by decide

@[simp] lemma tb_4_1 : Nat.testBit 4 1 = false := by decide

@[simp] lemma tb_4_2 : Nat.testBit 4 2 = true := by decide

@[simp] lemma tb_4_3 : Nat.testBit 4 3 = false := by decide

@[simp] lemma tb_4_4 : Nat.testBit 4 4 = false := by decide

@[simp] lemma tb_5_0 : Nat.testBit 5 0 = true := by decide

@[simp] lemma tb_5_1 : Nat.testBit 5 1 = false := by decide

@[simp] lemma tb_5_2 : Nat.testBit 5 2 = true := by decide

@[simp] lemma tb_5_3 : Nat.testBit 5 3 = false := by decide

@[simp] lemma tb_5_4 : Nat.testBit 5 4 = false := by decide

@[simp] lemma tb_7_0 : Nat.testBit 7 0 = true := by decide

@[simp] lemma tb_7_1 : Nat.testBit 7 1 = true := by decide

@[simp] lemma tb_7_2 : Nat.testBit 7 2 = true := by decide

@[simp] lemma tb_7_3 : Nat.testBit 7 3 = false := by decide

@[simp] lemma tb_7_4 : Nat.testBit 7 4 = false := by decide

@[simp] lemma tb_8_0 : Nat.testBit 8 0 = false := by decide

@[simp] lemma tb_8_1 : Nat.testBit 8 1 = false := by decide

@[simp] lemma tb_8_2 : Nat.testBit 8 2 = false := by decide

@[simp] lemma tb_8_3 : Nat.testBit 8 3 = true := by decide

@[simp] lemma tb_8_4 : Nat.testBit 8 4 = false := by decide

@[simp] lemma tb_16_0 : Nat.testBit 16 0 = false := by decide

@[simp] lemma tb_16_1 : Nat.testBit 16 1 = false := by decide

@[simp] lemma tb_16_2 : Nat.testBit 16 2 = false := by decide

@[simp] lemma tb_16_3 : Nat.testBit 16 3 = false := by decide

@[simp] lemma tb_16_4 : Nat.testBit 16 4 = true := by decide

@[simp] lemma tb_17_0 : Nat.testBit 17 0 = true := by decide

@[simp] lemma tb_17_1 : Nat.testBit 17 1 = false := by decide

@[simp] lemma tb_17_2 : Nat.testBit 17 2 = false := by decide

@[simp] lemma tb_17_3 : Nat.testBit 17 3 = false := by decide

@[simp] lemma tb_17_4 : Nat.testBit 17 4 = true := by decide

@[simp] lemma tb_20_0 : Nat.testBit 20 0 = false := by decide

@[simp] lemma tb_20_1 : Nat.testBit 20 1 = false := by decide

@[simp] lemma tb_20_2 : Nat.testBit 20 2 = true := by decide

@[simp] lemma tb_20_3 : Nat.testBit 20 3 = false := by decide

@[simp] lemma tb_20_4 : Nat.testBit 20 4 = true := by decide

@[simp] lemma tb_24_0 : Nat.testBit 24 0 = false := by decide

@[simp] lemma tb_24_1 : Nat.testBit 24 1 = false := by decide

@[simp] lemma tb_24_2 : Nat.testBit 24 2 = false := by decide

@[simp] lemma tb_24_3 : Nat.testBit 24 3 = true := by decide

@[simp] lemma tb_24_4 : Nat.testBit 24 4 = true := by decide

@[simp] lemma tb_28_0 : Nat.testBit 28 0 = false := by decide

@[simp] lemma tb_28_1 : Nat.testBit 28 1 = false := by decide

@[simp] lemma tb_28_2 : Nat.testBit 28 2 = true := by decide

@[simp] lemma tb_28_3 : Nat.testBit 28 3 = true := by decide

@[simp] lemma tb_28_4 : Nat.testBit 28 4 = true := by decide

@[simp] lemma tb_239_0 : Nat.testBit 239 0 = true := by decide

@[simp] lemma tb_239_1 : Nat.testBit 239 1 = true := by decide

@[simp] lemma tb_239_2 : Nat.testBit 239 2 = true := by decide

@[simp] lemma tb_239_3 : Nat.testBit 239 3 = true := by decide

@[simp] lemma tb_239_4 : Nat.testBit 239 4 = false := by decide

@[simp] lemma tb_247_0 : Nat.testBit 247 0 = true := by decide

@[simp] lemma tb_247_1 : Nat.testBit 247 1 = true := by decide

@[simp] lemma tb_247_2 : Nat.testBit 247 2 = true := by decide

@[simp] lemma tb_247_3 : Nat.testBit 247 3 = false := by decide

@[simp] lemma tb_247_4 : Nat.testBit 247 4 = true := by decide

@[simp] lemma tb_248_0 : Nat.testBit 248 0 = false := by decide

@[simp] lemma tb_248_1 : Nat.testBit 248 1 = false := by decide

@[simp] lemma tb_248_2 : Nat.testBit 248 2 = false := by decide

@[simp] lemma tb_248_3 : Nat.testBit 248 3 = true := by decide

@[simp] lemma tb_248_4 : Nat.testBit 248 4 = true := by decide

@[simp] lemma tb_251_0 : Nat.testBit 251 0 = true := by decide

@[simp] lemma tb_251_1 : Nat.testBit 251 1 = true := by decide

@[simp] lemma tb_251_2 : Nat.testBit 251 2 = false := by decide

@[simp] lemma tb_251_3 : Nat.testBit 251 3 = true := by decide

@[simp] lemma tb_251_4 : Nat.testBit 251 4 = true := by decide

@[simp] lemma tb_253_0 : Nat.testBit 253 0 = true := by decide

@[simp] lemma tb_253_1 : Nat.testBit 253 1 = false := by decide

@[simp] lemma tb_253_2 : Nat.testBit 253 2 = true := by decide

@[simp] lemma tb_253_3 : Nat.testBit 253 3 = true := by decide

@[simp] lemma tb_253_4 : Nat.testBit 253 4 = true := by decide

@[simp] lemma tb_254_0 : Nat.testBit 254 0 = false := by decide

@[simp] lemma tb_254_1 : Nat.testBit 254 1 = true := by decide

@[simp] lemma tb_254_2 : Nat.testBit 254 2 = true := by decide

@[simp] lemma tb_254_3 : Nat.testBit 254 3 = true := by decide

@[simp] lemma tb_254_4 : Nat.testBit 254 4 = true := by decide

@[simp] lemma tb_255_0 : Nat.testBit 255 0 = true := by decide

@[simp] lemma tb_255_1 : Nat.testBit 255 1 = true := by decide

@[simp] lemma tb_255_2 : Nat.testBit 255 2 = true := by decide

@[simp] lemma tb_255_3 : Nat.testBit 255 3 = true := by decide

@[simp] lemma tb_255_4 : Nat.testBit 255 4 = true := by decide


end RpiCarPs

namespace RpiCarPs

/-! Characterization of the two handlers on the spec observables. -/

/-- Bits of the numeral 255 (the 8-bit register width). -/
lemma testBit_255 (i : Nat) : Nat.testBit 255 i = decide (i < 8) := by
  have h : (255 : Nat) = 2 ^ 8 - 1 := rfl
  rw [h, Nat.testBit_two_pow_sub_one]

lemma pinb_piOut (s : State) (p : Pins) :
    (pinb s p).testBit 0 = p.piOut := by
  cases hs : p.switchedPwr <;> cases ho : p.piOut <;>
    simp [pinb, ddrbBoot, _BV, PI_OUT, PI_IN, LED, BIG_SWITCH, SWITCHED_PWR, hs, ho]

/-- The low bit of `PINB` in the normal form produced by `Nat.testBit_zero`. -/
lemma pinb_mod_two (s : State) (p : Pins) :
    pinb s p % 2 = cond p.piOut 1 0 := by
  have h := pinb_piOut s p
  rw [Nat.testBit_zero] at h
  rcases Nat.mod_two_eq_zero_or_one (pinb s p) with hm | hm <;>
    cases ho : p.piOut <;> rw [ho] at h <;> simp_all

lemma pinb_switchedPwr (s : State) (p : Pins) :
    (pinb s p).testBit 1 = p.switchedPwr := by
  cases hs : p.switchedPwr <;> cases ho : p.piOut <;>
    simp [pinb, ddrbBoot, _BV, PI_OUT, PI_IN, LED, BIG_SWITCH, SWITCHED_PWR, hs, ho]

lemma pinb_bigSwitch (s : State) (p : Pins) :
    (pinb s p).testBit 2 = s.portb.testBit 2 := by
  cases hs : p.switchedPwr <;> cases ho : p.piOut <;>
    simp [pinb, ddrbBoot, _BV, PI_OUT, PI_IN, LED, BIG_SWITCH, SWITCHED_PWR, hs, ho]

lemma pinb_piIn (s : State) (p : Pins) :
    (pinb s p).testBit 3 = s.portb.testBit 3 := by
  cases hs : p.switchedPwr <;> cases ho : p.piOut <;>
    simp [pinb, ddrbBoot, _BV, PI_OUT, PI_IN, LED, BIG_SWITCH, SWITCHED_PWR, hs, ho]

lemma pinb_led (s : State) (p : Pins) :
    (pinb s p).testBit 4 = s.portb.testBit 4 := by
  cases hs : p.switchedPwr <;> cases ho : p.piOut <;>
    simp [pinb, ddrbBoot, _BV, PI_OUT, PI_IN, LED, BIG_SWITCH, SWITCHED_PWR, hs, ho]

lemma clockArmed_enableClock (t : Nat) : clockArmed (enableClock t) = true := by
  have h0 : (enableClock t &&& (_BV CS02 ||| _BV CS01 ||| _BV CS00)).testBit 0 = true := by
    simp [enableClock, _BV, CS00, CS01, CS02]
  simp only [clockArmed]
  exact bne_iff_ne.mpr (fun hEq => by rw [hEq] at h0; simp at h0)

lemma clockArmed_disableClock (t : Nat) : clockArmed (disableClock t) = false := by
  have h1 : disableClock t = t &&& 248 := by simp [disableClock, _BV, CS00, CS01, CS02]
  have h2 : (_BV CS02 ||| _BV CS01 ||| _BV CS00 : Nat) = 7 := by decide
  have hz : t &&& 248 &&& 7 = 0 := by
    rw [Nat.land_assoc]
    have h3 : (248 &&& 7 : Nat) = 0 := by decide
    rw [h3]
    apply Nat.eq_of_testBit_eq
    intro i
    simp
  simp [clockArmed, h1, h2, hz]

/-- The `disable_timer0` helper touches only `TCCR0B`. -/
lemma disable_timer0_frame (s : State) :
    (disable_timer0 s).portb = s.portb ∧
    (disable_timer0 s).pi_script_running = s.pi_script_running := ⟨rfl, rfl⟩

/-- What one invocation of `ISR(PCINT0_vect)` does to `MainPowerEnabled`:
the gate is preserved unless the host line reads low with
`pi_script_running` set, in which case it is cleared; it is never raised. -/
lemma pcint_MainPowerEnabled (p : Pins) (s : State) :
    MainPowerEnabled (pcint p s) =
      (MainPowerEnabled s && !(!p.piOut && s.pi_script_running)) := by
  cases hs : p.switchedPwr <;> cases ho : p.piOut <;>
      cases hr : s.pi_script_running <;>
    simp [pcint, MainPowerEnabled, pinb_mod_two, pinb_switchedPwr, pinb_bigSwitch,
      disable_timer0, enable_timer0, _BV,
      PI_OUT, PI_IN, LED, BIG_SWITCH, SWITCHED_PWR, hs, ho, hr]

/-- After every invocation of `ISR(PCINT0_vect)`, `HostNotify` is exactly the
negation of the sensed switched-power level. -/
lemma pcint_HostNotify (p : Pins) (s : State) :
    HostNotify (pcint p s) = !p.switchedPwr := by
  cases hs : p.switchedPwr <;> cases ho : p.piOut <;>
      cases hr : s.pi_script_running <;>
    simp [pcint, HostNotify, pinb_mod_two, pinb_switchedPwr, pinb_piIn,
      disable_timer0, enable_timer0, _BV,
      PI_OUT, PI_IN, LED, BIG_SWITCH, SWITCHED_PWR, hs, ho, hr]

/-- What one invocation of `ISR(PCINT0_vect)` does to the driven LED level. -/
lemma pcint_LedDriven (p : Pins) (s : State) :
    LedDriven (pcint p s) =
      (p.switchedPwr || (!(!p.piOut && s.pi_script_running) && LedDriven s)) := by
  cases hs : p.switchedPwr <;> cases ho : p.piOut <;>
      cases hr : s.pi_script_running <;>
    simp [pcint, LedDriven, pinb_mod_two, pinb_switchedPwr, pinb_led,
      disable_timer0, enable_timer0, _BV,
      PI_OUT, PI_IN, LED, BIG_SWITCH, SWITCHED_PWR, hs, ho, hr]

/-- After every invocation of `ISR(PCINT0_vect)`, the blink timer is armed iff
the sensed switched-power level was low (the final `if`/`else` always runs,
ending with `disable_timer0`/`enable_timer0` respectively). -/
lemma pcint_timerArmed (p : Pins) (s : State) :
    timerArmed (pcint p s) = !p.switchedPwr := by
  cases hs : p.switchedPwr <;> cases ho : p.piOut <;>
      cases hr : s.pi_script_running <;>
    simp [pcint, timerArmed, pinb_mod_two, pinb_switchedPwr,
      disable_timer0, enable_timer0, PI_OUT, PI_IN, LED, BIG_SWITCH, SWITCHED_PWR,
      clockArmed_enableClock, clockArmed_disableClock, hs, ho, hr]

/-- What one invocation of `ISR(PCINT0_vect)` does to `pi_script_running`:
latched high whenever the host line reads high, never cleared. -/
lemma pcint_flag (p : Pins) (s : State) :
    (pcint p s).pi_script_running = (p.piOut || s.pi_script_running) := by
  cases hs : p.switchedPwr <;> cases ho : p.piOut <;>
      cases hr : s.pi_script_running <;>
    simp [pcint, pinb_mod_two, pinb_switchedPwr, disable_timer0, enable_timer0,
      PI_OUT, PI_IN, LED, BIG_SWITCH, SWITCHED_PWR, hs, ho, hr]

/-- The timer-overflow handler toggles the driven LED level. -/
lemma tim0_ovf_LedDriven (p : Pins) (s : State) :
    LedDriven (tim0_ovf p s) = !LedDriven s := by
  cases hs : p.switchedPwr <;> cases ho : p.piOut <;>
    simp [tim0_ovf, LedDriven, pinb_led, _BV,
      PI_OUT, PI_IN, LED, BIG_SWITCH, SWITCHED_PWR, hs, ho]

/-- The timer-overflow handler leaves `MainPowerEnabled`, `HostNotify`,
`pi_script_running` and the timer state unchanged. -/
lemma tim0_ovf_frame (p : Pins) (s : State) :
    MainPowerEnabled (tim0_ovf p s) = MainPowerEnabled s ∧
    HostNotify (tim0_ovf p s) = HostNotify s ∧
    (tim0_ovf p s).pi_script_running = s.pi_script_running ∧
    (tim0_ovf p s).tccr0b = s.tccr0b := by
  refine ⟨?_, ?_, rfl, rfl⟩ <;>
    cases hs : p.switchedPwr <;> cases ho : p.piOut <;>
    simp [tim0_ovf, MainPowerEnabled, HostNotify, pinb_bigSwitch, pinb_piIn, _BV,
      PI_OUT, PI_IN, LED, BIG_SWITCH, SWITCHED_PWR, hs, ho]

end RpiCarPs

namespace RpiCarPs

/-! Trace-level lemmas. -/

lemma run_nil (s : State) : run [] s = s := rfl

lemma run_cons (e : Ev) (evs : List Ev) (s : State) :
    run (e :: evs) s = run evs (step e s) := rfl

lemma run_append (evs₁ evs₂ : List Ev) (s : State) :
    run (evs₁ ++ evs₂) s = run evs₂ (run evs₁ s) := by
  simp [run, List.foldl_append]

/-- No single handler invocation ever raises `MainPowerEnabled`. -/
lemma step_MainPower_off (e : Ev) (s : State) (h : MainPowerEnabled s = false) :
    MainPowerEnabled (step e s) = false := by
  cases e with
  | edge p => simp [step, pcint_MainPowerEnabled, h]
  | tick p => simp [step, (tim0_ovf_frame p s).1, h]

/-- No sequence of handler invocations ever raises `MainPowerEnabled`. -/
lemma run_MainPower_off (evs : List Ev) (s : State)
    (h : MainPowerEnabled s = false) : MainPowerEnabled (run evs s) = false := by
  induction evs generalizing s with
  | nil => exact h
  | cons e evs ih => exact ih (step e s) (step_MainPower_off e s h)

/-- `pi_script_running`, once set, survives every handler invocation. -/
lemma run_flag_mono (evs : List Ev) (s : State)
    (h : s.pi_script_running = true) : (run evs s).pi_script_running = true := by
  induction evs generalizing s with
  | nil => exact h
  | cons e evs ih =>
      refine ih (step e s) ?_
      cases e with
      | edge p => simp [step, pcint_flag, h]
      | tick p => simpa [step, tim0_ovf] using h

/-- If `pi_script_running` holds after a trace, either it already held at the
start or some edge in the trace sensed the host line high. -/
lemma run_flag_origin (evs : List Ev) (s : State)
    (h : (run evs s).pi_script_running = true) :
    s.pi_script_running = true ∨ ∃ q : Pins, Ev.edge q ∈ evs ∧ q.piOut = true := by
  induction evs generalizing s with
  | nil => exact Or.inl h
  | cons e evs ih =>
      rcases ih (step e s) h with hset | ⟨q, hq, hqhigh⟩
      · cases e with
        | edge p =>
            rw [step, pcint_flag] at hset
            cases ho : p.piOut with
            | true => exact Or.inr ⟨p, List.mem_cons_self _ _, ho⟩
            | false =>
                rw [ho, Bool.false_or] at hset
                exact Or.inl hset
        | tick p => exact Or.inl hset
      · exact Or.inr ⟨q, List.mem_cons_of_mem _ hq, hqhigh⟩

/-- An armed blink timer renders `Blinking`. -/
lemma ledState_of_timerArmed (s : State) (h : timerArmed s = true) :
    ledState s = .Blinking := by
  simp [ledState, h]

/-- Timer ticks preserve `MainPowerEnabled` and the whole `TCCR0B`. -/
lemma run_ticks_frame (n : Nat) (pb : Pins) (s : State) :
    MainPowerEnabled (run (List.replicate n (Ev.tick pb)) s) = MainPowerEnabled s ∧
    (run (List.replicate n (Ev.tick pb)) s).tccr0b = s.tccr0b ∧
    (run (List.replicate n (Ev.tick pb)) s).pi_script_running
        = s.pi_script_running := by
  induction n generalizing s with
  | zero => exact ⟨rfl, rfl, rfl⟩
  | succ n ih =>
      rw [List.replicate_succ, run_cons]
      have h := ih (step (Ev.tick pb) s)
      simp only [step] at h
      exact ⟨h.1.trans (tim0_ovf_frame pb s).1,
             h.2.1.trans (tim0_ovf_frame pb s).2.2.2,
             h.2.2.trans (tim0_ovf_frame pb s).2.2.1⟩

end RpiCarPs

namespace RpiCarPs

/-! Theorems for the spec claims. -/

/-- C1: for every sequence of handled input edges and timer ticks within one
power cycle starting from boot initialization, once `MainPowerEnabled` (the
`BIG_SWITCH` output) becomes false, no subsequent invocation of the edge
handler or the timer-tick handler ever makes it true again. -/
theorem C1_mainPower_monotone_off (pre suf : List Ev)
    (h : MainPowerEnabled (run pre boot) = false) :
    MainPowerEnabled (run (pre ++ suf) boot) = false := by
  rw [run_append]
  exact run_MainPower_off suf _ h

theorem C1_witness :
    MainPowerEnabled
      (run [Ev.edge ⟨true, true⟩, Ev.edge ⟨true, false⟩] boot) = false ∧
    MainPowerEnabled
      (run ([Ev.edge ⟨true, true⟩, Ev.edge ⟨true, false⟩] ++
        [Ev.edge ⟨true, true⟩, Ev.tick ⟨true, true⟩, Ev.edge ⟨false, false⟩])
        boot) = false :=
  ⟨by decide,
   C1_mainPower_monotone_off
    [Ev.edge ⟨true, true⟩, Ev.edge ⟨true, false⟩]
    [Ev.edge ⟨true, true⟩, Ev.tick ⟨true, true⟩, Ev.edge ⟨false, false⟩]
    (by decide)⟩

/-- C2: starting from boot, a handler invocation that clears a previously set
`MainPowerEnabled` must have read the host line low, and some earlier edge of
the trace must have observed the host line high (so, while
`pi_script_running` has never been set, an invocation reading the host line
low never clears `MainPowerEnabled`). -/
theorem C2_power_cut_needs_prior_high (evs : List Ev) (p : Pins)
    (hon : MainPowerEnabled (run evs boot) = true)
    (hoff : MainPowerEnabled (pcint p (run evs boot)) = false) :
    p.piOut = false ∧ ∃ q : Pins, Ev.edge q ∈ evs ∧ q.piOut = true := by
  have hchar := pcint_MainPowerEnabled p (run evs boot)
  rw [hoff, hon, Bool.true_and] at hchar
  have hcut : (!p.piOut && (run evs boot).pi_script_running) = true := by
    cases hval : (!p.piOut && (run evs boot).pi_script_running) with
    | true => rfl
    | false => rw [hval] at hchar; simp at hchar
  have hlow : p.piOut = false := by
    cases ho : p.piOut with
    | false => rfl
    | true => rw [ho] at hcut; simp at hcut
  have hflag : (run evs boot).pi_script_running = true := by
    rw [hlow] at hcut
    simpa using hcut
  rcases run_flag_origin evs boot hflag with hboot | hfound
  · exact absurd hboot (by decide)
  · exact ⟨hlow, hfound⟩

theorem C2_witness :
    MainPowerEnabled (run [Ev.edge ⟨true, true⟩] boot) = true ∧
    MainPowerEnabled (pcint ⟨true, false⟩ (run [Ev.edge ⟨true, true⟩] boot))
        = false ∧
    ((⟨true, false⟩ : Pins).piOut = false ∧
      ∃ q : Pins, Ev.edge q ∈ [Ev.edge ⟨true, true⟩] ∧ q.piOut = true) :=
  ⟨by decide, by decide,
   C2_power_cut_needs_prior_high [Ev.edge ⟨true, true⟩] ⟨true, false⟩
    (by decide) (by decide)⟩

/-- C3: after every invocation of the combined edge handler, the `HostNotify`
output (`PI_IN`) equals the negation of the sensed switched-power level —
unconditionally, hence in particular for the entire period `MainPowerEnabled`
is true — and timer ticks never disturb it. -/
theorem C3_hostNotify_mirrors_switched (p : Pins) (s : State) :
    HostNotify (pcint p s) = !p.switchedPwr ∧
    HostNotify (tim0_ovf p s) = HostNotify s :=
  ⟨pcint_HostNotify p s, (tim0_ovf_frame p s).2.1⟩

/-- C4 (code evaluation at the failing input): from boot, after the host is
observed running (edge with host high, switched power high) and then requests
power-off (edge with host low, switched power high), `MainPowerEnabled` is
false yet `LedState` is `SolidOn`, not `Off` — the final switched-power
branch of the handler re-drives the LED after the power-off branch cleared
it. -/
theorem C4_ledState_not_off_when_power_off :
    MainPowerEnabled (run [Ev.edge ⟨true, true⟩, Ev.edge ⟨true, false⟩] boot)
        = false ∧
    ledState (run [Ev.edge ⟨true, true⟩, Ev.edge ⟨true, false⟩] boot)
        = LedState.SolidOn := by
  decide

/-- C5 (code evaluation at the failing input): on the edge where the host
requests power-off (host line low after having been observed high) with
switched power absent, the handler does clear `MainPowerEnabled`, but its
final branch re-arms the blink timer, so `LedState` ends `Blinking`, not
`Off`. -/
theorem C5_ledState_after_power_off_request :
    MainPowerEnabled (pcint ⟨false, false⟩ (run [Ev.edge ⟨true, true⟩] boot))
        = false ∧
    ledState (pcint ⟨false, false⟩ (run [Ev.edge ⟨true, true⟩] boot))
        = LedState.Blinking := by
  decide

/-- C6 (counterexample to the claim as stated): an invocation that observes
the host line high while switched power reads low ends with the blink timer
armed — the handler's host branch disables the timer, but the final
switched-power branch re-enables it in the same invocation. -/
theorem C6_counterexample :
    (pcint ⟨false, true⟩ boot).pi_script_running = true ∧
    timerArmed (pcint ⟨false, true⟩ boot) = true := by
  decide

/-- C6 (amended): `pi_script_running` is false at boot, is set by any
invocation observing the host line high, is never cleared by either handler,
and an invocation observing the host line high leaves the blink timer
disabled whenever switched power also reads high (when switched power reads
low, the independent switched-power branch re-arms the timer in the same
invocation). -/
theorem C6_flag_latch_and_timer (p : Pins) (s : State) :
    boot.pi_script_running = false ∧
    (pcint p s).pi_script_running = (p.piOut || s.pi_script_running) ∧
    (tim0_ovf p s).pi_script_running = s.pi_script_running ∧
    (p.piOut = true → p.switchedPwr = true → timerArmed (pcint p s) = false) := by
  refine ⟨rfl, pcint_flag p s, rfl, ?_⟩
  intro _ hs
  rw [pcint_timerArmed, hs]
  rfl

theorem C6_witness :
    timerArmed (pcint ⟨true, true⟩ boot) = false ∧
    (pcint ⟨true, true⟩ boot).pi_script_running = (true || boot.pi_script_running) :=
  ⟨(C6_flag_latch_and_timer ⟨true, true⟩ boot).2.2.2 rfl rfl,
   (C6_flag_latch_and_timer ⟨true, true⟩ boot).2.1⟩

/-- C7: the boot sequence drives the power-gate, notify and LED lines as
outputs (`DDRB`), enables edge sensing on exactly the two input lines
(`GIMSK`/`PCMSK`), enables the timer overflow interrupt, arms the blink
timer, and asserts `MainPowerEnabled`; immediately after initialization
`MainPowerEnabled` is true and the LED is `Blinking`, and it stays so across
any number of timer ticks (no edge handled, host not yet observed). -/
theorem C7_boot_sequence (n : Nat) :
    ddrbBoot.testBit LED = true ∧ ddrbBoot.testBit BIG_SWITCH = true ∧
    ddrbBoot.testBit PI_IN = true ∧ ddrbBoot.testBit SWITCHED_PWR = false ∧
    ddrbBoot.testBit PI_OUT = false ∧
    pcmskBoot.testBit SWITCHED_PWR = true ∧ pcmskBoot.testBit PI_OUT = true ∧
    gimskBoot.testBit PCIE = true ∧ timskBoot.testBit TOIE0 = true ∧
    MainPowerEnabled boot = true ∧ timerArmed boot = true ∧
    ledState boot = LedState.Blinking ∧
    MainPowerEnabled (run (List.replicate n (Ev.tick ⟨true, false⟩)) boot) = true ∧
    ledState (run (List.replicate n (Ev.tick ⟨true, false⟩)) boot)
        = LedState.Blinking ∧
    (run (List.replicate n (Ev.tick ⟨true, false⟩)) boot).pi_script_running
        = false := by
  have hf := run_ticks_frame n ⟨true, false⟩ boot
  refine ⟨by decide, by decide, by decide, by decide, by decide, by decide,
    by decide, by decide, by decide, by decide, by decide, by decide,
    ?_, ?_, ?_⟩
  · rw [hf.1]; decide
  · refine ledState_of_timerArmed _ ?_
    show clockArmed _ = true
    rw [hf.2.1]
    decide
  · rw [hf.2.2]; rfl

/-- C8: every invocation of the timer-tick handler toggles the driven LED
level and leaves `MainPowerEnabled`, `HostNotify`, `pi_script_running` and
the entire timer configuration register unchanged — it makes no sequencing
decision. -/
theorem C8_tick_toggles_only_led (p : Pins) (s : State) :
    LedDriven (tim0_ovf p s) = !LedDriven s ∧
    MainPowerEnabled (tim0_ovf p s) = MainPowerEnabled s ∧
    HostNotify (tim0_ovf p s) = HostNotify s ∧
    (tim0_ovf p s).pi_script_running = s.pi_script_running ∧
    (tim0_ovf p s).tccr0b = s.tccr0b :=
  ⟨tim0_ovf_LedDriven p s, tim0_ovf_frame p s⟩

/-- C9: the combined edge handler's result does not depend on which of the
two inputs edged to trigger it — `ISR(PCINT0_vect)` is a single vector for
both pins and its body reads only the current levels and
`pi_script_running`, re-evaluating both conditions on every invocation. -/
theorem C9_trigger_independent (c₁ c₂ : EdgeCause) (p : Pins) (s : State) :
    pcintFrom c₁ p s = pcintFrom c₂ p s := rfl

/-- C10: the whole-port write `PORTB = _BV(BIG_SWITCH)` that ends boot
initialization asserts `MainPowerEnabled` and forces the `HostNotify` and
LED driven levels low, for every value of the sensed input levels at boot. -/
theorem C10_boot_port_write (bp : Pins) :
    init bp = boot ∧ MainPowerEnabled (init bp) = true ∧
    HostNotify (init bp) = false ∧ LedDriven (init bp) = false := by
  have h : init bp = boot := rfl
  refine ⟨h, ?_, ?_, ?_⟩ <;> rw [h] <;> decide

end RpiCarPs
